import Mathlib

/-!
Verification of the barbell-angle pipeline.

This file gives a shallow embedding, in Lean 4, of the computational core of
the real-time barbell angle calculation repository, and proves (or refutes)
the behavioural claims made about it.  Exact arithmetic is used throughout:
list/statistics code is embedded over `ℚ` (computable), the transcendental
angle formulas over `ℝ`.  The embedded functions follow the Python source
line by line; their doc comments name the source file and function.
-/

namespace Barbell

/-! ## Smoothing Engine (Smoothing_MovingAverage.py) -/

/-- Uniform kernel `np.ones(window_size) / window_size` from
`moving_average` in `Smoothing_MovingAverage.py`. -/
def np_ones_div (w : Nat) : List ℚ := List.replicate w (1 / (w : ℚ))

/-- One coefficient of the full (mode `full`) discrete convolution of `a`
with `v`: the sum of `a[i] * v[k - i]` over all in-range index pairs.  The
guard `i ≤ k` replaces the integer constraint `0 ≤ k - i` (Lean `Nat`
subtraction truncates), and `getD _ 0` returns `0` outside either list,
exactly the zero-padding semantics of `np.convolve`. -/
def conv_full_at (a v : List ℚ) (k : Nat) : ℚ :=
  ∑ i ∈ Finset.range a.length, if i ≤ k then a.getD i 0 * v.getD (k - i) 0 else 0

/-- Embedding of `np.convolve(a, v, mode='same')`.  NumPy rejects an empty
kernel with `ValueError("v cannot be empty")`; otherwise it returns the
centred `max (len a) (len v)` coefficients of the full convolution, starting
at offset `(min (len a) (len v) - 1) / 2`. -/
def np_convolve_same (a v : List ℚ) : Except String (List ℚ) :=
  if v.length = 0 then Except.error ("v cannot be empty")
  else Except.ok ((List.range (max a.length v.length)).map
    (fun t => conv_full_at a v (t + (min a.length v.length - 1) / 2)))

/-- Message of the `ValueError` raised by `moving_average` in
`Smoothing_MovingAverage.py` when the series is shorter than the window
(the error the specification calls `InsufficientDataError`). -/
def insufficient_msg : String := "Data length must be greater than or equal to the window size."

/-- Embedding of `moving_average(data, window_size)` from
`Smoothing_MovingAverage.py`: raise if `len(data) < window_size`, else
return `np.convolve(data, np.ones(window_size)/window_size, mode='same')`. -/
def moving_average (data : List ℚ) (window_size : Nat) : Except String (List ℚ) :=
  if data.length < window_size then Except.error insufficient_msg
  else np_convolve_same data (np_ones_div window_size)

/-- Arithmetic mean of a list of rationals (division by zero yields `0` for
the empty list, which no theorem below relies on). -/
def mean (l : List ℚ) : ℚ := l.sum / (l.length : ℚ)

/-- Sample variance (denominator `n - 1`, the `ddof=1` convention of
`pandas.Series.std`), used to compare the spread of a series before and
after smoothing. -/
def sample_variance (l : List ℚ) : ℚ :=
  ((l.map (fun x => (x - mean l) ^ 2)).sum) / ((l.length : ℚ) - 1)

/-- A series is constant when all its entries are equal. -/
def all_equal (l : List ℚ) : Prop := ∀ x ∈ l, ∀ y ∈ l, x = y

/-! ## Marker Resolver (Gender_compare_groups.py, class BarbellTracker) -/

/-- One detected ArUco marker: pixel centre `(x, y)` and the integer marker
identifier, the triple `(center_x, center_y, ids[i][0])` built by
`BarbellTracker.detect_markers`. -/
structure Detection where
  x : ℤ
  y : ℤ
  id : ℤ
deriving DecidableEq, Repr

/-- The `points.sort(key=lambda x: x[2])` step of
`BarbellTracker.detect_markers`: a stable sort of the detections by
ascending identifier (Python `list.sort` and `List.mergeSort` are both
stable). -/
def sort_by_id (ps : List Detection) : List Detection :=
  ps.mergeSort (fun a b => decide (a.id ≤ b.id))

/-- Tail of `BarbellTracker.detect_markers` in `Gender_compare_groups.py`:
sort the detected points by marker identifier and return their `(x, y)`
centres (all of them; the method never truncates the list). -/
def detect_markers (ps : List Detection) : List (ℤ × ℤ) :=
  (sort_by_id ps).map (fun p => (p.x, p.y))

/-- The `max_trajectory_points` constant set in `BarbellTracker.__init__`. -/
def max_trajectory_points : Nat := 50

/-- State transition of the trajectory buffer performed by
`BarbellTracker.draw_markers_and_lines`: when exactly 3 points are supplied
the midpoint `points[1]` is appended and, if the buffer then exceeds
`max_trajectory_points`, the oldest entry is popped (`pop(0)`); otherwise
the buffer is untouched.  Drawing side effects are irrelevant to the buffer
and are not modelled.  The `getD` default is never reached because the
branch guarantees `points` has 3 elements. -/
def draw_markers_and_lines (trajectory : List (ℤ × ℤ)) (points : List (ℤ × ℤ)) :
    List (ℤ × ℤ) :=
  if points.length = 3 then
    let t := trajectory ++ [points.getD 1 (0, 0)]
    if max_trajectory_points < t.length then t.drop 1 else t
  else trajectory

/-- The trajectory buffer produced by a freshly constructed tracker
(`self.trajectory = []`) after one `draw_markers_and_lines` call per entry
of `inputs`, in order, as in `BarbellTracker.process_video`. -/
def run_tracker (inputs : List (List (ℤ × ℤ))) : List (ℤ × ℤ) :=
  inputs.foldl draw_markers_and_lines []

/-! ## Statistics Engine (Weight_compare_groups.py / Gender_compare_groups.py) -/

/-- Significance classification branch of the annotation helper that both
comparison scripts define (`p < 0.001` three stars, `p < 0.01` two stars,
`p < alpha` one star, otherwise not significant), with the caller-supplied
threshold `alpha` defaulting to `0.05` at the CLI. -/
def significance_stars (p alpha : ℚ) : String :=
  if p < 1/1000 then "***"
  else if p < 1/100 then "**"
  else if p < alpha then "*"
  else "ns"

/-! ## NaN propagation (part_000 / Gender_compare_groups.py main) -/

/-- A possibly-missing float value: `none` models the NaN sentinel used for
missing keypoint data, `some q` a finite value. -/
abbrev OptQ := Option ℚ

/-- NaN-propagating lift of a binary float operation: NaN in either operand
makes the result NaN, exactly as IEEE arithmetic behaves for the
subtraction, absolute value and division used by the angle pipeline. -/
def opt2 (f : ℚ → ℚ → ℚ) (a b : OptQ) : OptQ :=
  a.bind (fun x => b.map (fun y => f x y))

/-- NaN-propagating lift of a unary float operation. -/
def opt1 (f : ℚ → ℚ) (a : OptQ) : OptQ := a.map f

/-- One frame of keypoint data as read by `analyze_barbell_angles`
(part_000): the six coordinates of Left, Middle and Right, each possibly
missing (NaN). -/
structure FrameRec where
  lx : OptQ
  ly : OptQ
  mx : OptQ
  my : OptQ
  rx : OptQ
  ry : OptQ

/-- The `left_dy / left_dx` ratio of `analyze_barbell_angles` (part_000)
with NaN propagation: `left_dx = abs(Left.x - Middle.x)` and
`left_dy = (h - Left.y) - (h - Middle.y)`.  The subsequent
`np.degrees(np.arctan(.))` maps NaN to NaN and finite values to finite
values, so the angle is NaN exactly when this ratio is. -/
def left_ratio_opt (h : ℚ) (fr : FrameRec) : OptQ :=
  opt2 (· / ·) (opt2 (· - ·) (opt2 (· - ·) (some h) fr.ly) (opt2 (· - ·) (some h) fr.my))
    (opt1 abs (opt2 (· - ·) fr.lx fr.mx))

/-- Right-segment analogue of `left_ratio_opt`, from the `right_dy /
right_dx` ratio of `analyze_barbell_angles`. -/
def right_ratio_opt (h : ℚ) (fr : FrameRec) : OptQ :=
  opt2 (· / ·) (opt2 (· - ·) (opt2 (· - ·) (some h) fr.ry) (opt2 (· - ·) (some h) fr.my))
    (opt1 abs (opt2 (· - ·) fr.rx fr.mx))

/-- The `.dropna()` step of both comparison scripts (and the `skipna`
behaviour of the pandas `mean`/`std` used by part_000): keep exactly the
non-NaN entries, in order. -/
def dropna (l : List OptQ) : List ℚ := l.filterMap id

/-- Number of NaN entries of a series. -/
def nan_count (l : List OptQ) : Nat := l.countP (fun x => x.isNone)

/-- Mean over the non-NaN entries only, as computed by
`np.mean(df[col].dropna())` in the comparison scripts and by the
skipna-default `mean` of part_000. -/
def nan_mean (l : List OptQ) : ℚ := mean (dropna l)

/-! ## Angle Engine, slope form
(`calculate_and_plot_angles` in Smoothing_MovingAverage.py and
`analyze_barbell_angles` in part_000).  The transcendental formulas are
embedded over `ℝ` with exact real arithmetic. -/

/-- Radians-to-degrees conversion `np.degrees` / `math.degrees`. -/
noncomputable def degrees (x : ℝ) : ℝ := x * (180 / Real.pi)

/-- The literal `epsilon = 1e-9` of `calculate_and_plot_angles`. -/
noncomputable def epsilon : ℝ := 1 / 1000000000

/-- Denominator of the slope-form division in `calculate_and_plot_angles`
(Smoothing_MovingAverage.py): `left_dx + epsilon` where
`left_dx = abs(Left.x - Middle.x)`.  The right segment uses the same
expression with the Right coordinates. -/
noncomputable def calc_left_denom (lx mx : ℝ) : ℝ := |lx - mx| + epsilon

/-- Slope-form angle of `calculate_and_plot_angles`
(Smoothing_MovingAverage.py):
`np.degrees(np.arctan(left_dy / (left_dx + epsilon)))` with
`left_dy = (h - Left.y) - (h - Middle.y)` built from the normalized
y-coordinates.  The script hard-codes the frame height `h = 1342`; it is
kept as a parameter here because the claims quantify over it.  The right
segment is this same formula at the Right coordinates. -/
noncomputable def calc_left_angle_deg (h lx ly mx my : ℝ) : ℝ :=
  degrees (Real.arctan (((h - ly) - (h - my)) / calc_left_denom lx mx))

/-- Denominator of the slope-form division in `analyze_barbell_angles`
(part_000): `left_dx = abs(Left.x - Middle.x)` with no epsilon added. -/
noncomputable def p000_left_denom (lx mx : ℝ) : ℝ := |lx - mx|

/-- Slope-form angle of `analyze_barbell_angles` (part_000):
`np.degrees(np.arctan(left_dy / left_dx))` with `left_dy` built from the
y-coordinates normalized by `video_height` (parameter `h`), and no epsilon
in the denominator. -/
noncomputable def p000_left_angle_deg (h lx ly mx my : ℝ) : ℝ :=
  degrees (Real.arctan (((h - ly) - (h - my)) / p000_left_denom lx mx))

/-- Modelled from the specification text of §8 (the comparison side of the
normalization-invariance property): the slope-form angle computed by
flipping the sign of the raw-pixel dy directly, with the epsilon
denominator of `calculate_and_plot_angles`. -/
noncomputable def flip_raw_angle_deg (lx ly mx my : ℝ) : ℝ :=
  degrees (Real.arctan ((-(ly - my)) / calc_left_denom lx mx))

/-- Modelled from the specification text of §8: the raw-dy-flip comparison
angle for the epsilon-free part_000 variant. -/
noncomputable def p000_flip_raw_angle_deg (lx ly mx my : ℝ) : ℝ :=
  degrees (Real.arctan ((-(ly - my)) / p000_left_denom lx mx))

/-! ## Angle Engine, directional form (`calculate_angle` in
barbell_angle_display.py). -/

/-- Mathematical two-argument arctangent: `atan2 y x` is the argument of
the complex number `x + y i`, with range `(-π, π]` and `atan2 0 0 = 0`,
matching `math.atan2` on non-zero arguments and on `(+0.0, +0.0)`. -/
noncomputable def atan2 (y x : ℝ) : ℝ := Complex.arg ⟨x, y⟩

/-- Embedding of the float expression `math.atan2(-dy, dx)` of
`calculate_angle`.  When `dy == 0.0` the Python negation produces the IEEE
negative zero `-0.0`, and `math.atan2(-0.0, dx)` returns `-π` for `dx < 0`
and `-0.0` (that is, zero) for `dx ≥ 0`; real numbers have no signed zero,
so that branch is made explicit here.  For `dy ≠ 0` the float result is the
exact `atan2 (-dy) dx`. -/
noncomputable def atan2_neg_dy (dy dx : ℝ) : ℝ :=
  if dy = 0 then (if dx < 0 then -Real.pi else 0) else atan2 (-dy) dx

/-- Embedding of `calculate_angle(p1, p2, is_left)` from
barbell_angle_display.py: `dx = p2.x - p1.x`, `dy = p2.y - p1.y`,
`angle = degrees(atan2(-dy, dx))`, negated when the segment is the left
one. -/
noncomputable def calculate_angle (p1 p2 : ℝ × ℝ) (isLeft : Bool) : ℝ :=
  let angle := degrees (atan2_neg_dy (p2.2 - p1.2) (p2.1 - p1.1))
  if isLeft then -angle else angle

/-! ## Theorems -/

/-- C1.  Normalization invariance: for every pair of points and every frame
height, the slope-form angle computed from the normalized y-coordinates
equals the angle obtained by flipping the sign of the raw-pixel dy, and the
result is independent of the frame height; this holds both for the
epsilon-denominator variant (`calculate_and_plot_angles`) and for the
epsilon-free variant (`analyze_barbell_angles`). -/
theorem c1_normalization_invariance (h h' lx ly mx my : ℝ) :
    calc_left_angle_deg h lx ly mx my = flip_raw_angle_deg lx ly mx my
    ∧ calc_left_angle_deg h lx ly mx my = calc_left_angle_deg h' lx ly mx my
    ∧ p000_left_angle_deg h lx ly mx my = p000_flip_raw_angle_deg lx ly mx my
    ∧ p000_left_angle_deg h lx ly mx my = p000_left_angle_deg h' lx ly mx my := by
  have key : ∀ a : ℝ, (a - ly) - (a - my) = -(ly - my) := by intro a; ring
  unfold calc_left_angle_deg flip_raw_angle_deg p000_left_angle_deg p000_flip_raw_angle_deg
  rw [key h, key h']
  exact ⟨rfl, rfl, rfl, rfl⟩

/-- C2 counterexample.  In `analyze_barbell_angles` (part_000) no epsilon is
added: at a frame with `Left.x = Middle.x = 1` (so `dx == 0`) the slope-form
denominator is exactly `0`, so the division by zero is reached there,
contradicting the claim that the slope-form computation always adds `1e-9`
and never divides by zero. -/
theorem c2_counterexample_p000_denominator_zero : p000_left_denom 1 1 = 0 := by
  unfold p000_left_denom
  simp

/-- C2 amended.  In `calculate_and_plot_angles`
(Smoothing_MovingAverage.py) the denominator `abs dx + 1e-9` is strictly
positive for every input, so that division never divides by zero, and when
the two x-coordinates coincide (`dx == 0`) the denominator is exactly the
epsilon `1e-9`. -/
theorem c2_epsilon_denominator_pos (lx mx : ℝ) :
    0 < calc_left_denom lx mx ∧ calc_left_denom lx lx = epsilon := by
  constructor
  · have h1 : (0 : ℝ) ≤ |lx - mx| := abs_nonneg _
    have h2 : (0 : ℝ) < epsilon := by unfold epsilon; norm_num
    unfold calc_left_denom
    linarith
  · unfold calc_left_denom
    simp

/-- C9.  The significance label is three stars exactly when `p < 0.001`,
two stars exactly when `0.001 ≤ p < 0.01`, one star exactly when
`0.01 ≤ p < alpha`, and `ns` otherwise; the classification is a pure
function of `p` and `alpha` alone. -/
theorem c9_significance_classification (p a : ℚ) :
    (significance_stars p a = "***" ↔ p < 1/1000)
    ∧ (significance_stars p a = "**" ↔ ¬p < 1/1000 ∧ p < 1/100)
    ∧ (significance_stars p a = "*" ↔ ¬p < 1/1000 ∧ ¬p < 1/100 ∧ p < a)
    ∧ (significance_stars p a = "ns" ↔ ¬p < 1/1000 ∧ ¬p < 1/100 ∧ ¬p < a) := by
  unfold significance_stars
  split_ifs with h1 h2 h3 <;> simp_all

/-- Helper for C10: one `draw_markers_and_lines` call preserves the bound
on the trajectory buffer. -/
theorem draw_step_length_le (traj ps : List (ℤ × ℤ))
    (hl : traj.length ≤ max_trajectory_points) :
    (draw_markers_and_lines traj ps).length ≤ max_trajectory_points := by
  simp only [draw_markers_and_lines]
  split_ifs with h3 hover
  · simp only [List.length_drop, List.length_append, List.length_singleton,
      max_trajectory_points] at *
    omega
  · simp only [List.length_append, List.length_singleton, max_trajectory_points] at *
    omega
  · exact hl

/-- Helper for C10: the bound is an invariant of any run of the tracker. -/
theorem run_tracker_preserves_bound (inputs : List (List (ℤ × ℤ))) :
    ∀ traj : List (ℤ × ℤ), traj.length ≤ max_trajectory_points →
      (inputs.foldl draw_markers_and_lines traj).length ≤ max_trajectory_points := by
  induction inputs with
  | nil => intro traj h; simpa using h
  | cons p t ih => intro traj h; exact ih _ (draw_step_length_le traj p h)

/-- C10.  Starting from a freshly constructed tracker, after every sequence
of `draw_markers_and_lines` calls the trajectory buffer holds at most
`max_trajectory_points = 50` midpoints; the buffer is untouched unless
exactly 3 points are supplied, in which case the midpoint `points[1]` is
appended, and when the buffer already holds 50 entries the oldest one is
discarded. -/
theorem c10_trajectory_bounded (inputs : List (List (ℤ × ℤ)))
    (traj ps : List (ℤ × ℤ)) :
    (run_tracker inputs).length ≤ max_trajectory_points
    ∧ (ps.length ≠ 3 → draw_markers_and_lines traj ps = traj)
    ∧ (ps.length = 3 → traj.length < max_trajectory_points →
        draw_markers_and_lines traj ps = traj ++ [ps.getD 1 (0, 0)])
    ∧ (ps.length = 3 → traj.length = max_trajectory_points →
        draw_markers_and_lines traj ps = (traj ++ [ps.getD 1 (0, 0)]).drop 1) := by
  refine ⟨run_tracker_preserves_bound inputs []
      (by simp [max_trajectory_points]), ?_, ?_, ?_⟩
  · intro hne
    unfold draw_markers_and_lines
    rw [if_neg hne]
  · intro h3 hlt
    unfold draw_markers_and_lines
    rw [if_pos h3, if_neg]
    simp only [List.length_append, List.length_singleton, max_trajectory_points] at hlt ⊢
    omega
  · intro h3 heq
    unfold draw_markers_and_lines
    rw [if_pos h3, if_pos]
    simp only [List.length_append, List.length_singleton, max_trajectory_points] at heq ⊢
    omega

/-- C10 witness: concrete runs exercising every case of
`c10_trajectory_bounded`. -/
theorem c10_trajectory_bounded_witness :
    (run_tracker [[(0, 0), (1, 1), (2, 2)]]).length ≤ max_trajectory_points
    ∧ draw_markers_and_lines [(5, 5)] [] = [(5, 5)]
    ∧ draw_markers_and_lines [] [(0, 0), (1, 1), (2, 2)] = [(1, 1)]
    ∧ draw_markers_and_lines (List.replicate 50 ((0 : ℤ), (0 : ℤ)))
        [(0, 0), (1, 1), (2, 2)]
      = (List.replicate 50 ((0 : ℤ), (0 : ℤ)) ++ [(1, 1)]).drop 1 := by
  refine ⟨(c10_trajectory_bounded [[(0, 0), (1, 1), (2, 2)]] [] []).1,
    (c10_trajectory_bounded [] [(5, 5)] []).2.1 (by decide), ?_, ?_⟩
  · have h := (c10_trajectory_bounded [] [] [(0, 0), (1, 1), (2, 2)]).2.2.1
      (by decide) (by decide)
    simpa using h
  · have h := (c10_trajectory_bounded [] (List.replicate 50 ((0 : ℤ), (0 : ℤ)))
      [(0, 0), (1, 1), (2, 2)]).2.2.2 (by decide) (by simp [max_trajectory_points])
    simpa using h

/-- C3 counterexample.  When four markers are detected,
`detect_markers` returns all four points (sorted by identifier), not the
first three by identifier value: the output length is 4, not 3. -/
theorem c3_counterexample_four_detections :
    (detect_markers [⟨10, 11, 0⟩, ⟨20, 21, 1⟩, ⟨30, 31, 2⟩, ⟨40, 41, 3⟩]).length = 4
    ∧ (detect_markers [⟨10, 11, 0⟩, ⟨20, 21, 1⟩, ⟨30, 31, 2⟩, ⟨40, 41, 3⟩]).length ≠ 3 := by
  have hlen : (detect_markers [⟨10, 11, 0⟩, ⟨20, 21, 1⟩, ⟨30, 31, 2⟩, ⟨40, 41, 3⟩]).length
      = 4 := by
    unfold detect_markers sort_by_id
    rw [List.length_map, (List.mergeSort_perm _ _).length_eq]
    rfl
  exact ⟨hlen, by rw [hlen]; decide⟩

/-- C3 amended.  `detect_markers` returns the centres of a permutation of
all the detected points, ordered by ascending identifier; when more than 3
candidates are detected it still returns all of them (one output point per
detection), with no truncation — frames without exactly 3 points are simply
skipped downstream by `draw_markers_and_lines`. -/
theorem c3_resolver_sorts_all_points (ps : List Detection) :
    (sort_by_id ps).Perm ps
    ∧ ((sort_by_id ps).map Detection.id).Sorted (· ≤ ·)
    ∧ (detect_markers ps).length = ps.length := by
  refine ⟨List.mergeSort_perm ps _, ?_, ?_⟩
  · have hs := @List.sorted_mergeSort Detection (fun a b => decide (a.id ≤ b.id))
      (by intro a b c hab hbc
          simp only [decide_eq_true_eq] at *
          exact le_trans hab hbc)
      (by intro a b
          simp only [Bool.or_eq_true, decide_eq_true_eq]
          exact le_total _ _)
      ps
    refine List.pairwise_map.mpr (hs.imp ?_)
    intro a b hab
    exact of_decide_eq_true hab
  · unfold detect_markers sort_by_id
    rw [List.length_map, (List.mergeSort_perm _ _).length_eq]

/-- Helper for C4: a degrees-of-arctan value is strictly between -90
and 90. -/
theorem degrees_arctan_bounds (x : ℝ) :
    -90 < degrees (Real.arctan x) ∧ degrees (Real.arctan x) < 90 := by
  have hc : (0 : ℝ) < 180 / Real.pi := div_pos (by norm_num) Real.pi_pos
  have h90 : Real.pi / 2 * (180 / Real.pi) = 90 := by
    have hπ : Real.pi ≠ 0 := Real.pi_ne_zero
    field_simp
    ring
  unfold degrees
  constructor
  · have h2 := mul_lt_mul_of_pos_right (Real.neg_pi_div_two_lt_arctan x) hc
    rw [neg_mul, h90] at h2
    linarith
  · have h2 := mul_lt_mul_of_pos_right (Real.arctan_lt_pi_div_two x) hc
    rw [h90] at h2
    linarith

/-- Helper for C4: the embedded `atan2(-dy, dx)` always lies in the
half-open interval from -π (attained) up to but excluding π. -/
theorem atan2_neg_dy_bounds (dy dx : ℝ) :
    -Real.pi ≤ atan2_neg_dy dy dx ∧ atan2_neg_dy dy dx < Real.pi := by
  unfold atan2_neg_dy
  split_ifs with h0 hneg
  · exact ⟨le_refl _, by linarith [Real.pi_pos]⟩
  · exact ⟨by linarith [Real.pi_pos], Real.pi_pos⟩
  · unfold atan2
    refine ⟨le_of_lt (Complex.neg_pi_lt_arg _), lt_of_le_of_ne (Complex.arg_le_pi _) ?_⟩
    intro harg
    have him : -dy = 0 := (Complex.arg_eq_pi_iff.mp harg).2
    exact h0 (by linarith)

/-- Helper for C4: `degrees` maps values in the interval from -π
(attained) to π (excluded) into the interval from -180 (attained) to 180
(excluded). -/
theorem degrees_pi_bounds (t : ℝ) (h1 : -Real.pi ≤ t) (h2 : t < Real.pi) :
    -180 ≤ degrees t ∧ degrees t < 180 := by
  have hc : (0 : ℝ) < 180 / Real.pi := div_pos (by norm_num) Real.pi_pos
  have h180 : Real.pi * (180 / Real.pi) = 180 := by
    have hπ : Real.pi ≠ 0 := Real.pi_ne_zero
    field_simp
  unfold degrees
  constructor
  · have h3 := mul_le_mul_of_nonneg_right h1 (le_of_lt hc)
    rw [neg_mul, h180] at h3
    linarith
  · have h3 := mul_lt_mul_of_pos_right h2 hc
    rw [h180] at h3
    linarith

/-- C4 counterexample.  With `p1 = (1, 0)` and `p2 = (0, 0)` — finite,
distinct points — the right-segment directional angle is exactly -180,
which lies outside the claimed range (-180, 180]: the segment points in the
negative x direction with `dy == 0`, and the float negation makes
`atan2(-0.0, -1.0) = -π`. -/
theorem c4_counterexample_directional :
    calculate_angle (1, 0) (0, 0) false = -180 := by
  simp only [calculate_angle, atan2_neg_dy, degrees]
  norm_num
  have hπ : Real.pi ≠ 0 := Real.pi_ne_zero
  field_simp

/-- C4 amended.  For every input, the slope-form angle (both the
epsilon and the epsilon-free variant) is strictly between -90 and 90
degrees, and the directional-form angle lies in the closed interval
[-180, 180]; the un-negated form can attain exactly -180 (see the
counterexample), so the claimed half-open range (-180, 180] only holds for
the negated (left-segment) form. -/
theorem c4_angle_bounds (h lx ly mx my : ℝ) (p1 p2 : ℝ × ℝ) (b : Bool) :
    (-90 < calc_left_angle_deg h lx ly mx my ∧ calc_left_angle_deg h lx ly mx my < 90)
    ∧ (-90 < p000_left_angle_deg h lx ly mx my ∧ p000_left_angle_deg h lx ly mx my < 90)
    ∧ (-180 ≤ calculate_angle p1 p2 b ∧ calculate_angle p1 p2 b ≤ 180) := by
  refine ⟨degrees_arctan_bounds _, degrees_arctan_bounds _, ?_⟩
  have hb := atan2_neg_dy_bounds (p2.2 - p1.2) (p2.1 - p1.1)
  have hd := degrees_pi_bounds _ hb.1 hb.2
  unfold calculate_angle
  cases b <;> simp only [Bool.false_eq_true, if_false, if_true, ite_false, ite_true] <;>
    constructor <;> linarith [hd.1, hd.2]

/-- C5.  For every series and every window size between 1 and the series
length, `moving_average` succeeds and its output has exactly the length of
the input series. -/
theorem c5_moving_average_length (data : List ℚ) (w : Nat) (h1 : 1 ≤ w)
    (h2 : w ≤ data.length) :
    ∃ out, moving_average data w = Except.ok out ∧ out.length = data.length := by
  unfold moving_average
  rw [if_neg (by omega)]
  unfold np_convolve_same
  rw [if_neg (by unfold np_ones_div; rw [List.length_replicate]; omega)]
  refine ⟨_, rfl, ?_⟩
  rw [List.length_map, List.length_range]
  unfold np_ones_div
  rw [List.length_replicate]
  omega

/-- C5 witness: a window of 2 on a 3-element series succeeds and preserves
the length. -/
theorem c5_moving_average_length_witness :
    ∃ out, moving_average [1, 2, 3] 2 = Except.ok out ∧ out.length = [(1 : ℚ), 2, 3].length :=
  c5_moving_average_length [1, 2, 3] 2 (by decide) (by decide)

/-- C6 counterexample.  With window size 0 the series length (3) is not
smaller than the window, yet `moving_average` does not return normally: the
length guard passes and `np.convolve` rejects the empty kernel with its own
`ValueError`, not the insufficient-data error. -/
theorem c6_counterexample_window_zero :
    moving_average [1, 2, 3] 0 = Except.error ("v cannot be empty")
    ∧ 0 ≤ [(1 : ℚ), 2, 3].length := by
  exact ⟨rfl, by omega⟩

/-- C6 amended.  `moving_average` fails with the insufficient-data error
exactly when the series is shorter than the window (the length guard runs
before any convolution work), and for every window size of at least 1 that
is at most the series length it returns normally; a window of 0 instead
fails inside the convolution with the empty-kernel error. -/
theorem c6_insufficient_data (data : List ℚ) (w : Nat) :
    (moving_average data w = Except.error insufficient_msg ↔ data.length < w)
    ∧ (1 ≤ w → w ≤ data.length → ∃ out, moving_average data w = Except.ok out) := by
  constructor
  · constructor
    · intro herr
      by_contra hge
      unfold moving_average at herr
      rw [if_neg hge] at herr
      unfold np_convolve_same at herr
      split_ifs at herr with hv
      simp only [Except.error.injEq] at herr
      exact absurd herr (by decide)
    · intro hlt
      unfold moving_average
      rw [if_pos hlt]
  · intro h1 h2
    unfold moving_average
    rw [if_neg (by omega)]
    unfold np_convolve_same
    rw [if_neg (by unfold np_ones_div; rw [List.length_replicate]; omega)]
    exact ⟨_, rfl⟩

/-- C6 witness: the error branch is taken exactly on short input, and a
valid window returns normally. -/
theorem c6_insufficient_data_witness :
    (moving_average [4, 5] 3 = Except.error insufficient_msg ↔ [(4 : ℚ), 5].length < 3)
    ∧ ∃ out, moving_average [4, 5] 2 = Except.ok out :=
  ⟨(c6_insufficient_data [4, 5] 3).1, (c6_insufficient_data [4, 5] 2).2 (by decide) (by decide)⟩

/-- Helper for C7: `getD` on a single-element kernel. -/
theorem getD_singleton (q : ℚ) (j : Nat) : List.getD [q] j 0 = if j = 0 then q else 0 := by
  cases j <;> simp [List.getD]

/-- Helper for C7: a full-convolution coefficient against a singleton
kernel picks out one input sample. -/
theorem conv_full_at_single (s : List ℚ) (q : ℚ) (t : Nat) (ht : t < s.length) :
    conv_full_at s [q] t = s.getD t 0 * q := by
  unfold conv_full_at
  have hsummand : ∀ i, (if i ≤ t then s.getD i 0 * List.getD [q] (t - i) 0 else 0)
      = (if i = t then s.getD i 0 * q else 0) := by
    intro i
    by_cases hit : i = t
    · subst hit
      simp [getD_singleton]
    · by_cases hle : i ≤ t
      · rw [if_pos hle, if_neg hit, getD_singleton, if_neg (by omega), mul_zero]
      · rw [if_neg hle, if_neg hit]
  rw [Finset.sum_congr rfl (fun i _ => hsummand i),
    Finset.sum_ite_eq' (Finset.range s.length) t (fun i => s.getD i 0 * q),
    if_pos (Finset.mem_range.mpr ht)]

/-- C7 amended (identity part).  For every nonempty series, a window of 1
is the identity transform; the empty series instead trips the length guard
(see the counterexample), and the variance-reduction part of the claim
fails in general. -/
theorem c7_window_one_identity (s : List ℚ) (hs : s ≠ []) :
    moving_average s 1 = Except.ok s := by
  have hlen : 1 ≤ s.length := by
    cases s with
    | nil => exact absurd rfl hs
    | cons a t => simp
  have hrep : np_ones_div 1 = [(1 : ℚ)] := by
    unfold np_ones_div
    norm_num
  unfold moving_average
  rw [if_neg (by omega), hrep]
  unfold np_convolve_same
  rw [if_neg (by simp)]
  congr 1
  simp only [List.length_singleton]
  rw [max_eq_left hlen, min_eq_right hlen]
  apply List.ext_get
  · rw [List.length_map, List.length_range]
  · intro n h1 h2
    rw [List.get_map]
    simp only [List.get_range]
    have hz : n + (1 - 1) / 2 = n := by norm_num
    rw [hz, conv_full_at_single s 1 n (by simpa using h2), mul_one, List.getD_eq_get]

/-- C7 witness: window 1 leaves a concrete series unchanged. -/
theorem c7_window_one_identity_witness :
    moving_average [3, 7] 1 = Except.ok [(3 : ℚ), 7] :=
  c7_window_one_identity [3, 7] (by simp)

/-- C7 counterexample.  On the non-constant series [100, 100, 100, 101], a
window of 2 strictly increases the sample variance (the zero-padded `same`
boundary pulls the first output toward 0), and on the empty series a window
of 1 is not the identity but the insufficient-data error: both refute the
claimed smoothing property as stated. -/
theorem c7_counterexample_variance :
    moving_average [100, 100, 100, 101] 2 = Except.ok [50, 100, 100, 201/2]
    ∧ sample_variance [(100 : ℚ), 100, 100, 101] < sample_variance [50, 100, 100, 201/2]
    ∧ ¬ all_equal [100, 100, 100, 101]
    ∧ moving_average [] 1 = Except.error insufficient_msg := by
  refine ⟨?_, ?_, ?_, rfl⟩
  · have hker : np_ones_div 2 = [(1 : ℚ)/2, 1/2] := by
      unfold np_ones_div
      norm_num [List.replicate]
    unfold moving_average
    rw [if_neg (by decide), hker]
    unfold np_convolve_same
    rw [if_neg (by decide)]
    congr 1
    norm_num
    rw [show List.range 4 = [0, 1, 2, 3] from rfl]
    simp only [List.map_cons, List.map_nil]
    norm_num [conv_full_at, Finset.sum_range_succ, List.getD]
  · norm_num [sample_variance, mean]
  · intro hall
    have h1 : (100 : ℚ) ∈ [(100 : ℚ), 100, 100, 101] := by simp
    have h2 : (101 : ℚ) ∈ [(100 : ℚ), 100, 100, 101] := by simp
    have := hall 100 h1 101 h2
    norm_num at this

/-- Helper for C8 and C7 framing: NaN propagation through a binary float
operation, left operand missing. -/
theorem opt2_none_left (f : ℚ → ℚ → ℚ) (b : OptQ) : opt2 f none b = none := rfl

/-- Helper for C8: NaN propagation through a binary float operation, right
operand missing. -/
theorem opt2_none_right (f : ℚ → ℚ → ℚ) (a : OptQ) : opt2 f a none = none := by
  cases a <;> rfl

/-- Helper for C8: NaN propagation through a unary float operation. -/
theorem opt1_none (f : ℚ → ℚ) : opt1 f none = none := rfl

/-- Helper for C8: the number of values used after dropping NaNs is the
total count minus the NaN count. -/
theorem length_dropna (l : List OptQ) : (dropna l).length = l.length - nan_count l := by
  induction l with
  | nil => rfl
  | cons a t ih =>
    cases a with
    | none =>
      have h1 : dropna (none :: t) = dropna t := by simp [dropna]
      have h2 : nan_count (none :: t) = nan_count t + 1 := by
        simp [nan_count, List.countP_cons]
      rw [h1, h2, ih, List.length_cons]
      omega
    | some q =>
      have h1 : dropna (some q :: t) = q :: dropna t := by simp [dropna]
      have h2 : nan_count (some q :: t) = nan_count t := by
        simp [nan_count, List.countP_cons]
      rw [h1, h2, List.length_cons, ih, List.length_cons]
      have hle : nan_count t ≤ t.length := by
        unfold nan_count
        apply List.countP_le_length
      omega

/-- C8.  A missing coordinate of any keypoint a segment depends on makes
that segment's angle NaN (the batch itself never aborts: the embedded
functions are total), and the downstream NaN-skipping aggregation uses
exactly the non-NaN entries: the count of values used equals the total
count minus the NaN count. -/
theorem c8_nan_propagation (h : ℚ) (fr : FrameRec) (l : List OptQ) :
    (fr.lx = none ∨ fr.ly = none ∨ fr.mx = none ∨ fr.my = none →
      left_ratio_opt h fr = none)
    ∧ (fr.rx = none ∨ fr.ry = none ∨ fr.mx = none ∨ fr.my = none →
      right_ratio_opt h fr = none)
    ∧ (dropna l).length = l.length - nan_count l := by
  obtain ⟨lx, ly, mx, my, rx, ry⟩ := fr
  refine ⟨?_, ?_, length_dropna l⟩
  · rintro (rfl | rfl | rfl | rfl) <;>
      simp only [left_ratio_opt, opt2_none_left, opt2_none_right, opt1_none]
  · rintro (rfl | rfl | rfl | rfl) <;>
      simp only [right_ratio_opt, opt2_none_left, opt2_none_right, opt1_none]

/-- C8 witness: a frame with a missing Left.y yields a NaN left angle, and
a concrete series with one NaN uses exactly two of its three entries. -/
theorem c8_nan_propagation_witness :
    left_ratio_opt 1342 ⟨some 1, none, some 2, some 3, some 4, some 5⟩ = none
    ∧ (dropna [some 1, none, some 2]).length
      = [some (1 : ℚ), none, some 2].length - nan_count [some 1, none, some 2] :=
  ⟨(c8_nan_propagation 1342 ⟨some 1, none, some 2, some 3, some 4, some 5⟩ []).1
      (Or.inr (Or.inl rfl)),
    (c8_nan_propagation 1342 ⟨none, none, none, none, none, none⟩
      [some 1, none, some 2]).2.2⟩

end Barbell
